import Mathlib

/-
  Shallow embedding of the AI-Book-Generator backend (src/app.py).

  Modelling conventions:
  * Python `str` is `List Char` (`PyStr`); f-strings become explicit
    concatenations reproducing the template text, indentation included.
  * Python exceptions are the inductive `PyExc`; a function that can raise
    returns `Except PyExc _`.  The `try/except` blocks inside the three
    `generate_with_*` methods log and then `raise e` again, so they are the
    identity on the outcome and are not represented separately.
  * The external SDK clients (`openai.OpenAI(...)`, `genai.GenerativeModel`,
    `anthropic.Anthropic(...)`) are opaque oracles: a configured client is a
    function from the request data to `Except PyExc PyStr`; the constructors
    are collected in `SDKEnv` and may themselves raise.
  * Observable effects are recorded as a trace (`List Event`): one event per
    actual SDK invocation (note: the Gemini invocation carries no token cap,
    exactly as in the source) and one per `time.sleep` call.
  * `max_tokens` defaults (4000 in `generate_content`/`generate_with_openai`
    and `generate_with_anthropic`) are passed explicitly at the call sites
    that omit them in Python.
-/

abbrev PyStr := List Char

def str (s : String) : PyStr := s.toList

/-- Python `str(n)` for a non-negative integer. -/
def natStr (n : Nat) : PyStr := (Nat.repr n).toList

/-- The single-quote character, used by Python `repr`/`str` of exceptions. -/
def squote : Char := Char.ofNat 39

/-- Python exceptions that can arise in app.py. -/
inductive PyExc where
  | attributeError (attr : PyStr)
  | valueError (msg : PyStr)
  | keyError (key : PyStr)
  | apiError (msg : PyStr)

/-- Python `str(e)` for each exception shape (`AttributeError` raised by an
attribute access on `None` reads `'NoneType' object has no attribute 'x'`;
`str` of a `KeyError` is the `repr` of the missing key). -/
def strOfExc : PyExc → PyStr
  | .attributeError a =>
      [squote] ++ str "NoneType" ++ [squote] ++ str " object has no attribute "
        ++ [squote] ++ a ++ [squote]
  | .valueError m => m
  | .keyError k => [squote] ++ k ++ [squote]
  | .apiError m => m

/-- Observable effects of a request: actual SDK invocations and sleeps. -/
inductive Event where
  | openaiCall (prompt : PyStr) (max_tokens : Nat)
  | geminiCall (prompt : PyStr)
  | anthropicCall (prompt : PyStr) (max_tokens : Nat)
  | sleepCall (seconds : Nat)

def eventPrompt : Event → Option PyStr
  | .openaiCall p _ => some p
  | .geminiCall p => some p
  | .anthropicCall p _ => some p
  | .sleepCall _ => none

def isGenCall : Event → Bool
  | .sleepCall _ => false
  | _ => true

def isSleep : Event → Bool
  | .sleepCall _ => true
  | _ => false

def countGenCalls (tr : List Event) : Nat := (tr.filter isGenCall).length

def countSleeps (tr : List Event) : Nat := (tr.filter isSleep).length

abbrev OpenAIClientT := PyStr → Nat → Except PyExc PyStr

abbrev GeminiModelT := PyStr → Except PyExc PyStr

abbrev AnthropicClientT := PyStr → Nat → Except PyExc PyStr

/-- `BookGenerator.__init__`: all three client fields start as `None`. -/
structure BookGenerator where
  openai_client : Option OpenAIClientT
  genai_model : Option GeminiModelT
  anthropic_client : Option AnthropicClientT

/-- The SDK constructors used by `configure_apis`; each may raise.
`mkGemini` covers `genai.configure` followed by `genai.GenerativeModel`. -/
structure SDKEnv where
  mkOpenAI : PyStr → Except PyExc OpenAIClientT
  mkGemini : PyStr → Except PyExc GeminiModelT
  mkAnthropic : PyStr → Except PyExc AnthropicClientT

/-- The `api_configs` dict: each key may be absent. -/
structure ApiConfigs where
  openai_key : Option PyStr
  gemini_key : Option PyStr
  anthropic_key : Option PyStr

/-- Python truthiness of `api_configs.get(k)`: `None` and `""` are falsy. -/
def truthy : Option PyStr → Bool
  | none => false
  | some s => !s.isEmpty

def exceptOk {α : Type} : Except PyExc α → Bool
  | .ok _ => true
  | .error _ => false

/-- Third block of the single `try` in `configure_apis`. -/
def configure_anthropic_step (env : SDKEnv) (g : BookGenerator)
    (cfg : ApiConfigs) : BookGenerator × Bool :=
  if truthy cfg.anthropic_key then
    match env.mkAnthropic (cfg.anthropic_key.getD []) with
    | .error _ => (g, false)
    | .ok c => ({ g with anthropic_client := some c }, true)
  else (g, true)

/-- Second block of the single `try` in `configure_apis`. -/
def configure_gemini_step (env : SDKEnv) (g : BookGenerator)
    (cfg : ApiConfigs) : BookGenerator × Bool :=
  if truthy cfg.gemini_key then
    match env.mkGemini (cfg.gemini_key.getD []) with
    | .error _ => (g, false)
    | .ok m => configure_anthropic_step env { g with genai_model := some m } cfg
  else configure_anthropic_step env g cfg

/-- `BookGenerator.configure_apis`.  All three provider blocks sit inside one
`try`: the first exception ends the method with `False`, keeping whatever
state was already assigned; reaching the end returns `True`.  (The module
global `openai.api_key` assignment has no observable effect here and is not
modelled.) -/
def BookGenerator.configure_apis (env : SDKEnv) (g : BookGenerator)
    (cfg : ApiConfigs) : BookGenerator × Bool :=
  if truthy cfg.openai_key then
    match env.mkOpenAI (cfg.openai_key.getD []) with
    | .error _ => (g, false)
    | .ok c => configure_gemini_step env { g with openai_client := some c } cfg
  else configure_gemini_step env g cfg

/-- `generate_with_openai`: on an unconfigured client,
`self.openai_client.chat` dereferences `None` and raises `AttributeError`
before any SDK call; otherwise the SDK is invoked (its `try/except` re-raises
the same exception). -/
def BookGenerator.generate_with_openai (g : BookGenerator) (prompt : PyStr)
    (max_tokens : Nat) : Except PyExc PyStr × List Event :=
  match g.openai_client with
  | none => (.error (.attributeError (str "chat")), [])
  | some client => (client prompt max_tokens, [Event.openaiCall prompt max_tokens])

/-- `generate_with_gemini`: note it takes no `max_tokens` at all. -/
def BookGenerator.generate_with_gemini (g : BookGenerator) (prompt : PyStr) :
    Except PyExc PyStr × List Event :=
  match g.genai_model with
  | none => (.error (.attributeError (str "generate_content")), [])
  | some m => (m prompt, [Event.geminiCall prompt])

def BookGenerator.generate_with_anthropic (g : BookGenerator) (prompt : PyStr)
    (max_tokens : Nat) : Except PyExc PyStr × List Event :=
  match g.anthropic_client with
  | none => (.error (.attributeError (str "messages")), [])
  | some client => (client prompt max_tokens, [Event.anthropicCall prompt max_tokens])

/-- `generate_content`: dispatch on the provider string; unrecognised names
raise `ValueError(f"Unsupported provider: {provider}")`. -/
def BookGenerator.generate_content (g : BookGenerator) (provider prompt : PyStr)
    (max_tokens : Nat) : Except PyExc PyStr × List Event :=
  if provider = str "openai" then g.generate_with_openai prompt max_tokens
  else if provider = str "gemini" then g.generate_with_gemini prompt
  else if provider = str "anthropic" then g.generate_with_anthropic prompt max_tokens
  else (.error (.valueError (str "Unsupported provider: " ++ provider)), [])

/-- The `book_data` dict.  The keys read with `[...]` are required (requests
are modelled with them present); the keys read with `.get` are `Option`s.
`length` is kept as its rendered string. -/
structure BookData where
  title : PyStr
  genre : PyStr
  target_audience : PyStr
  theme : PyStr
  length : PyStr
  additional_details : Option PyStr
  num_chapters : Option Nat
  chapter_length : Option Nat
  tone : Option PyStr

/-- The `chapter_info` dict. -/
structure ChapterInfo where
  number : Nat
  title : PyStr
  description : PyStr

/-- The f-string built by `create_book_outline` (triple-quoted, so every line
keeps its 8-space indentation; the blank-looking lines hold 8 spaces). -/
def outline_prompt (bd : BookData) : PyStr :=
  str "\n        Create a detailed book outline for a " ++ bd.genre
    ++ str " book with the following specifications:\n        \n        Title: " ++ bd.title
    ++ str "\n        Target Audience: " ++ bd.target_audience
    ++ str "\n        Main Theme: " ++ bd.theme
    ++ str "\n        Estimated Length: " ++ bd.length
    ++ str " words\n        \n        Additional Details:\n        " ++ bd.additional_details.getD []
    ++ str "\n        \n        Please provide:\n        1. A compelling book summary\n        2. Detailed chapter outline (aim for " ++ natStr (bd.num_chapters.getD 10)
    ++ str " chapters)\n        3. Character descriptions (if applicable)\n        4. Key plot points or main concepts\n        5. Tone and style recommendations\n        \n        Format the response clearly with headers for each section.\n        "

/-- The part of the `generate_chapter` f-string before `{outline[:1000]}`. -/
def chapter_prompt_pre (bd : BookData) (ci : ChapterInfo) : PyStr :=
  str "\n        Write Chapter " ++ natStr ci.number
    ++ str ": \"" ++ ci.title
    ++ str "\" for the book \"" ++ bd.title
    ++ str "\".\n        \n        Book Context:\n        - Genre: " ++ bd.genre
    ++ str "\n        - Target Audience: " ++ bd.target_audience
    ++ str "\n        - Theme: " ++ bd.theme
    ++ str "\n        \n        Chapter Guidelines:\n        - Chapter Description: " ++ ci.description
    ++ str "\n        - Target Length: Approximately " ++ natStr (bd.chapter_length.getD 2000)
    ++ str " words\n        - Tone: " ++ bd.tone.getD (str "Engaging and appropriate for the genre")
    ++ str "\n        \n        Book Outline Context:\n        "

/-- The part of the `generate_chapter` f-string after `{outline[:1000]}`
(the `#` text sits inside the triple-quoted string, so it is literal). -/
def chapter_prompt_post : PyStr :=
  str "...  # Provide context from outline\n        \n        Write a complete, engaging chapter that fits well within the overall book structure. \n        Include proper pacing, character development (if applicable), and advance the main theme or plot.\n        "

/-- The full chapter prompt; `outline[:1000]` is `List.take 1000 outline`. -/
def chapter_prompt (bd : BookData) (ci : ChapterInfo) (outline : PyStr) : PyStr :=
  chapter_prompt_pre bd ci ++ List.take 1000 outline ++ chapter_prompt_post

/-- `create_book_outline`: one `generate_content` call with the default
`max_tokens=4000`. -/
def BookGenerator.create_book_outline (g : BookGenerator) (provider : PyStr)
    (bd : BookData) : Except PyExc PyStr × List Event :=
  g.generate_content provider (outline_prompt bd) 4000

/-- `BookGenerator.generate_chapter`: one `generate_content` call with
`max_tokens=3000`. -/
def BookGenerator.generate_chapter (g : BookGenerator) (provider : PyStr)
    (bd : BookData) (ci : ChapterInfo) (outline : PyStr) :
    Except PyExc PyStr × List Event :=
  g.generate_content provider (chapter_prompt bd ci outline) 3000

/-
  Request handlers.  A request body is modelled as a record of `Option`s: a
  `none` field is a missing key, so `data['k']` on it raises `KeyError('k')`.
  Every handler wraps its body in `try/except Exception`, turning any raised
  exception `e` into `jsonify({'success': False, 'message': <prefix> str(e)})`;
  the `success: True` branches carry the payload fields (the `datetime.now()`
  timestamp is environment noise and is not modelled).
-/

/-- Body of `/create-outline` and `/generate-full-book` requests. -/
structure ProviderBookReq where
  provider : Option PyStr
  book_data : Option BookData

/-- Body of `/generate-chapter` requests. -/
structure ChapterReq where
  provider : Option PyStr
  book_data : Option BookData
  chapter_info : Option ChapterInfo
  outline : Option PyStr

inductive OutlineResp where
  | ok (outline : PyStr)
  | fail (message : PyStr)

inductive ChapterResp where
  | ok (content : PyStr) (chapter_number : Nat)
  | fail (message : PyStr)

/-- One element of the `chapters` array returned by `/generate-full-book`. -/
structure ChapterOut where
  number : Nat
  title : PyStr
  content : PyStr

inductive FullBookResp where
  | ok (outline : PyStr) (chapters : List ChapterOut) (total_chapters : Nat)
  | fail (message : PyStr)

def outline_error_msg (e : PyExc) : PyStr :=
  str "Error creating outline: " ++ strOfExc e

def chapter_error_msg (e : PyExc) : PyStr :=
  str "Error generating chapter: " ++ strOfExc e

def book_error_msg (e : PyExc) : PyStr :=
  str "Error generating book: " ++ strOfExc e

/-- The `/create-outline` handler (`create_outline` in app.py). -/
def create_outline (g : BookGenerator) (req : ProviderBookReq) :
    OutlineResp × List Event :=
  match req.provider with
  | none => (.fail (outline_error_msg (.keyError (str "provider"))), [])
  | some provider =>
    match req.book_data with
    | none => (.fail (outline_error_msg (.keyError (str "book_data"))), [])
    | some bd =>
      match g.create_book_outline provider bd with
      | (.ok outline, tr) => (.ok outline, tr)
      | (.error e, tr) => (.fail (outline_error_msg e), tr)

/-- The `/generate-chapter` handler (the route function `generate_chapter`
in app.py; the method of the same name is `BookGenerator.generate_chapter`).
`outline` is read with `data.get('outline', '')`. -/
def generate_chapter (g : BookGenerator) (req : ChapterReq) :
    ChapterResp × List Event :=
  match req.provider with
  | none => (.fail (chapter_error_msg (.keyError (str "provider"))), [])
  | some provider =>
    match req.book_data with
    | none => (.fail (chapter_error_msg (.keyError (str "book_data"))), [])
    | some bd =>
      match req.chapter_info with
      | none => (.fail (chapter_error_msg (.keyError (str "chapter_info"))), [])
      | some ci =>
        match g.generate_chapter provider bd ci (req.outline.getD []) with
        | (.ok content, tr) => (.ok content ci.number, tr)
        | (.error e, tr) => (.fail (chapter_error_msg e), tr)

/-- The synthetic `chapter_info` built for iteration `i` of the
`/generate-full-book` loop. -/
def full_book_chapter_info (i : Nat) : ChapterInfo :=
  { number := i,
    title := str "Chapter " ++ natStr i,
    description := str "Chapter " ++ natStr i ++ str " content based on the outline" }

/-- The `for i in range(1, num_chapters + 1)` loop of `generate_full_book`:
`i` is the current index, the second argument the number of iterations left.
Each successful iteration appends its chapter and then executes
`time.sleep(1)` (the sleep runs after every iteration, the last included). -/
def generate_full_book_loop (g : BookGenerator) (provider : PyStr)
    (bd : BookData) (outline : PyStr) :
    Nat → Nat → Except PyExc (List ChapterOut) × List Event
  | _, 0 => (.ok [], [])
  | i, k + 1 =>
    match g.generate_chapter provider bd (full_book_chapter_info i) outline with
    | (.error e, tr) => (.error e, tr)
    | (.ok content, tr) =>
      match generate_full_book_loop g provider bd outline (i + 1) k with
      | (.error e, tr2) => (.error e, tr ++ Event.sleepCall 1 :: tr2)
      | (.ok cs, tr2) =>
          (.ok ({ number := i, title := (full_book_chapter_info i).title,
                  content := content } :: cs),
           tr ++ Event.sleepCall 1 :: tr2)

/-- The `/generate-full-book` handler: one outline call, then
`min(3, book_data.get('num_chapters', 3))` chapter iterations. -/
def generate_full_book (g : BookGenerator) (req : ProviderBookReq) :
    FullBookResp × List Event :=
  match req.provider with
  | none => (.fail (book_error_msg (.keyError (str "provider"))), [])
  | some provider =>
    match req.book_data with
    | none => (.fail (book_error_msg (.keyError (str "book_data"))), [])
    | some bd =>
      match g.create_book_outline provider bd with
      | (.error e, tr) => (.fail (book_error_msg e), tr)
      | (.ok outline, tr) =>
        match generate_full_book_loop g provider bd outline 1
            (min 3 (bd.num_chapters.getD 3)) with
        | (.error e, tr2) => (.fail (book_error_msg e), tr ++ tr2)
        | (.ok cs, tr2) => (.ok outline cs cs.length, tr ++ tr2)

/-
  Concrete states and oracles used by witnesses and counterexamples.
-/

/-- A fresh generator: `BookGenerator()` with nothing configured. -/
def freshGen : BookGenerator :=
  { openai_client := none, genai_model := none, anthropic_client := none }

/-- A generator whose OpenAI client is configured and always succeeds,
answering with `f prompt max_tokens`. -/
def genOk (f : PyStr → Nat → PyStr) : BookGenerator :=
  { openai_client := some (fun p t => .ok (f p t)),
    genai_model := none, anthropic_client := none }

/-- A generator with all three clients configured. -/
def genAll (f1 : OpenAIClientT) (f2 : GeminiModelT) (f3 : AnthropicClientT) :
    BookGenerator :=
  { openai_client := some f1, genai_model := some f2, anthropic_client := some f3 }

def okOpenai : OpenAIClientT := fun _ _ => .ok (str "TEXT")

def okGemini : GeminiModelT := fun _ => .ok (str "TEXT")

def okAnthropic : AnthropicClientT := fun _ _ => .ok (str "TEXT")

def bdSample : BookData :=
  { title := str "My Book", genre := str "Fantasy",
    target_audience := str "Adults", theme := str "Courage",
    length := str "50000", additional_details := none,
    num_chapters := some 1, chapter_length := none, tone := none }

def ciSample : ChapterInfo :=
  { number := 1, title := str "Chapter 1", description := str "Opening" }

/-
  Claim theorems.
-/

/-- Claim C1 (code bug evidence): on a fresh `BookGenerator` with no
credential configured, `generate_content` for each of the three known
provider identifiers does NOT yield a distinguishable NotConfigured error;
it raises the `AttributeError` produced by dereferencing the `None` client
(attribute `chat` / `generate_content` / `messages`), with no provider
invocation.  No NotConfigured error exists anywhere in the code. -/
theorem generate_content_unconfigured_null_deref (prompt : PyStr) (t : Nat) :
    freshGen.generate_content (str "openai") prompt t
        = (.error (.attributeError (str "chat")), []) ∧
    freshGen.generate_content (str "gemini") prompt t
        = (.error (.attributeError (str "generate_content")), []) ∧
    freshGen.generate_content (str "anthropic") prompt t
        = (.error (.attributeError (str "messages")), []) :=
  ⟨rfl, rfl, rfl⟩

/-- Claim C9: for the `gemini` provider the whole outcome of
`generate_content` — result and provider invocation trace alike — is
independent of `max_tokens`, because `generate_with_gemini` takes no token
cap and the dispatch discards the argument. -/
theorem gemini_ignores_max_tokens (g : BookGenerator) (prompt : PyStr)
    (t1 t2 : Nat) :
    g.generate_content (str "gemini") prompt t1
      = g.generate_content (str "gemini") prompt t2 := rfl

/-- Claim C4: `generate_content` with a provider identifier that is none of
the three known ones raises `ValueError("Unsupported provider: ...")` and
invokes no provider client (empty trace), for every prompt and token cap. -/
theorem generate_content_unsupported_provider (g : BookGenerator)
    (provider prompt : PyStr) (t : Nat)
    (h1 : provider ≠ str "openai") (h2 : provider ≠ str "gemini")
    (h3 : provider ≠ str "anthropic") :
    g.generate_content provider prompt t
      = (.error (.valueError (str "Unsupported provider: " ++ provider)), []) := by
  unfold BookGenerator.generate_content
  rw [if_neg h1, if_neg h2, if_neg h3]

/-- Witness for C4 at the concrete provider name `mistral`. -/
theorem generate_content_unsupported_provider_witness :
    str "mistral" ≠ str "openai" ∧ str "mistral" ≠ str "gemini" ∧
    str "mistral" ≠ str "anthropic" ∧
    freshGen.generate_content (str "mistral") (str "hello") 4000
      = (.error (.valueError (str "Unsupported provider: " ++ str "mistral")), []) :=
  ⟨by decide, by decide, by decide,
   generate_content_unsupported_provider freshGen (str "mistral") (str "hello")
     4000 (by decide) (by decide) (by decide)⟩

/-- Claim C5: the prompt `generate_chapter` sends embeds exactly
`outline[:1000]`: the embedded context is at most 1000 characters, feeding
the already-truncated outline produces the identical prompt, and an outline
of length at most 1000 is embedded unchanged. -/
theorem generate_chapter_outline_truncation (g : BookGenerator)
    (provider : PyStr) (bd : BookData) (ci : ChapterInfo) (outline : PyStr) :
    g.generate_chapter provider bd ci outline
        = g.generate_content provider (chapter_prompt bd ci outline) 3000 ∧
    chapter_prompt bd ci outline
        = chapter_prompt_pre bd ci ++ List.take 1000 outline ++ chapter_prompt_post ∧
    (List.take 1000 outline).length ≤ 1000 ∧
    chapter_prompt bd ci (List.take 1000 outline) = chapter_prompt bd ci outline ∧
    (outline.length ≤ 1000 →
      chapter_prompt bd ci outline
        = chapter_prompt_pre bd ci ++ outline ++ chapter_prompt_post) := by
  refine ⟨rfl, rfl, ?_, ?_, ?_⟩
  · rw [List.length_take]; exact min_le_left _ _
  · simp [chapter_prompt, List.take_take]
  · intro h; simp [chapter_prompt, List.take_of_length_le h]

/-- Witness for C5: a short concrete outline is embedded unchanged. -/
theorem generate_chapter_outline_truncation_witness :
    chapter_prompt bdSample ciSample (str "Short outline")
      = chapter_prompt_pre bdSample ciSample ++ str "Short outline"
          ++ chapter_prompt_post :=
  (generate_chapter_outline_truncation freshGen (str "openai") bdSample ciSample
      (str "Short outline")).2.2.2.2 (by decide)

/-- Peeling one trailing segment off an append preserves containment. -/
lemma infix_snoc (a : PyStr) {b x : PyStr} (h : ∃ s t, b = s ++ x ++ t) :
    ∃ s t, b ++ a = s ++ x ++ t := by
  obtain ⟨s, t, rfl⟩ := h
  exact ⟨s, t ++ a, by simp⟩

/-- A segment sitting at the end of an append is contained in it. -/
lemma infix_last (b x : PyStr) : ∃ s t, b ++ x = s ++ x ++ t :=
  ⟨b, [], by simp⟩

/-- Claim C6: for a generator with all three clients configured,
`create_book_outline` issues exactly one generation call, every issued call
carries the rendered outline prompt, and that prompt contains the supplied
title, genre, target audience and theme as literal substrings. -/
theorem create_book_outline_single_call (f1 : OpenAIClientT)
    (f2 : GeminiModelT) (f3 : AnthropicClientT) (bd : BookData)
    (provider : PyStr)
    (hp : provider = str "openai" ∨ provider = str "gemini" ∨
      provider = str "anthropic") :
    countGenCalls ((genAll f1 f2 f3).create_book_outline provider bd).2 = 1 ∧
    (∀ e ∈ ((genAll f1 f2 f3).create_book_outline provider bd).2,
        eventPrompt e = some (outline_prompt bd)) ∧
    (∃ s t, outline_prompt bd = s ++ bd.title ++ t) ∧
    (∃ s t, outline_prompt bd = s ++ bd.genre ++ t) ∧
    (∃ s t, outline_prompt bd = s ++ bd.target_audience ++ t) ∧
    (∃ s t, outline_prompt bd = s ++ bd.theme ++ t) := by
  refine ⟨?_, ?_, ?_, ?_, ?_, ?_⟩
  · rcases hp with h | h | h <;> subst h <;> rfl
  · rcases hp with h | h | h <;> subst h
    · intro e he
      rw [show ((genAll f1 f2 f3).create_book_outline (str "openai") bd).2
          = [Event.openaiCall (outline_prompt bd) 4000] from rfl,
        List.mem_singleton] at he
      subst he; rfl
    · intro e he
      rw [show ((genAll f1 f2 f3).create_book_outline (str "gemini") bd).2
          = [Event.geminiCall (outline_prompt bd)] from rfl,
        List.mem_singleton] at he
      subst he; rfl
    · intro e he
      rw [show ((genAll f1 f2 f3).create_book_outline (str "anthropic") bd).2
          = [Event.anthropicCall (outline_prompt bd) 4000] from rfl,
        List.mem_singleton] at he
      subst he; rfl
  · simp only [outline_prompt]
    exact infix_snoc _ (infix_snoc _ (infix_snoc _ (infix_snoc _
      (infix_snoc _ (infix_snoc _ (infix_snoc _ (infix_snoc _ (infix_snoc _
      (infix_snoc _ (infix_snoc _ (infix_last _ _)))))))))))
  · simp only [outline_prompt]
    exact infix_snoc _ (infix_snoc _ (infix_snoc _ (infix_snoc _
      (infix_snoc _ (infix_snoc _ (infix_snoc _ (infix_snoc _ (infix_snoc _
      (infix_snoc _ (infix_snoc _ (infix_snoc _ (infix_snoc _
      (infix_last _ _)))))))))))))
  · simp only [outline_prompt]
    exact infix_snoc _ (infix_snoc _ (infix_snoc _ (infix_snoc _
      (infix_snoc _ (infix_snoc _ (infix_snoc _ (infix_snoc _ (infix_snoc _
      (infix_last _ _)))))))))
  · simp only [outline_prompt]
    exact infix_snoc _ (infix_snoc _ (infix_snoc _ (infix_snoc _
      (infix_snoc _ (infix_snoc _ (infix_snoc _ (infix_last _ _)))))))

/-- Witness for C6 at the `openai` provider and a concrete book spec. -/
theorem create_book_outline_single_call_witness :
    countGenCalls ((genAll okOpenai okGemini okAnthropic).create_book_outline
        (str "openai") bdSample).2 = 1 :=
  (create_book_outline_single_call okOpenai okGemini okAnthropic bdSample
      (str "openai") (Or.inl rfl)).1

/-- Claim C7: `BookGenerator.generate_chapter` always delegates with a token
cap of exactly 3000, for every `book_data` (hence every `chapter_length`):
the cap reaches the OpenAI and Anthropic invocations as 3000, and
`chapter_length` can only influence the prompt text. -/
theorem generate_chapter_token_cap (f1 : OpenAIClientT) (f2 : GeminiModelT)
    (f3 : AnthropicClientT) (bd : BookData) (ci : ChapterInfo)
    (outline provider : PyStr) :
    (genAll f1 f2 f3).generate_chapter provider bd ci outline
        = (genAll f1 f2 f3).generate_content provider
            (chapter_prompt bd ci outline) 3000 ∧
    (provider = str "openai" →
      ((genAll f1 f2 f3).generate_chapter provider bd ci outline).2
        = [Event.openaiCall (chapter_prompt bd ci outline) 3000]) ∧
    (provider = str "anthropic" →
      ((genAll f1 f2 f3).generate_chapter provider bd ci outline).2
        = [Event.anthropicCall (chapter_prompt bd ci outline) 3000]) ∧
    (provider = str "gemini" →
      ((genAll f1 f2 f3).generate_chapter provider bd ci outline).2
        = [Event.geminiCall (chapter_prompt bd ci outline)]) := by
  refine ⟨rfl, ?_, ?_, ?_⟩ <;> (rintro rfl; rfl)

/-- Witness for C7 at the `openai` provider and a concrete request. -/
theorem generate_chapter_token_cap_witness :
    ((genAll okOpenai okGemini okAnthropic).generate_chapter (str "openai")
        bdSample ciSample (str "OUTLINE")).2
      = [Event.openaiCall (chapter_prompt bdSample ciSample (str "OUTLINE"))
          3000] :=
  (generate_chapter_token_cap okOpenai okGemini okAnthropic bdSample ciSample
      (str "OUTLINE") (str "openai")).2.1 rfl

/-- With an always-succeeding OpenAI client, every iteration of the
full-book loop issues one generation call and then one sleep: `k`
iterations produce `k` chapters, `k` generation calls and `k` sleeps. -/
lemma generate_full_book_loop_ok (f : PyStr → Nat → PyStr) (bd : BookData)
    (outline : PyStr) :
    ∀ k i, ∃ cs tr,
      generate_full_book_loop (genOk f) (str "openai") bd outline i k
        = (.ok cs, tr) ∧
      cs.length = k ∧ countGenCalls tr = k ∧ countSleeps tr = k := by
  intro k
  induction k with
  | zero => exact fun i => ⟨[], [], rfl, rfl, rfl, rfl⟩
  | succ k ih =>
    intro i
    obtain ⟨cs, tr, h1, h2, h3, h4⟩ := ih (i + 1)
    have hchap : (genOk f).generate_chapter (str "openai") bd
        (full_book_chapter_info i) outline
        = (Except.ok (f (chapter_prompt bd (full_book_chapter_info i) outline) 3000),
           [Event.openaiCall (chapter_prompt bd (full_book_chapter_info i) outline)
             3000]) := rfl
    refine ⟨{ number := i, title := (full_book_chapter_info i).title,
              content := f (chapter_prompt bd (full_book_chapter_info i) outline)
                3000 } :: cs,
            Event.openaiCall (chapter_prompt bd (full_book_chapter_info i) outline)
                3000 :: Event.sleepCall 1 :: tr, ?_, ?_, ?_, ?_⟩
    · simp [generate_full_book_loop, hchap, h1]
    · simp [h2]
    · simp only [countGenCalls, List.filter_cons] at h3 ⊢
      simp [isGenCall, h3]
    · simp only [countSleeps, List.filter_cons] at h4 ⊢
      simp [isSleep, h4]

/-- Claim C2 (amended): on the success path, `generate_full_book` issues
exactly `1 + min(3, num_chapters)` generation calls (one outline call plus
one per generated chapter) and performs exactly one pause per generated
chapter — the `time.sleep(1)` runs after every iteration, the last included —
returning one outline and `min(3, num_chapters)` chapters. -/
theorem generate_full_book_counts (f : PyStr → Nat → PyStr) (bd : BookData) :
    countGenCalls (generate_full_book (genOk f)
        { provider := some (str "openai"), book_data := some bd }).2
      = 1 + min 3 (bd.num_chapters.getD 3) ∧
    countSleeps (generate_full_book (genOk f)
        { provider := some (str "openai"), book_data := some bd }).2
      = min 3 (bd.num_chapters.getD 3) ∧
    ∃ outline cs,
      (generate_full_book (genOk f)
          { provider := some (str "openai"), book_data := some bd }).1
        = FullBookResp.ok outline cs (min 3 (bd.num_chapters.getD 3)) ∧
      cs.length = min 3 (bd.num_chapters.getD 3) := by
  obtain ⟨cs, tr, h1, h2, h3, h4⟩ :=
    generate_full_book_loop_ok f bd (f (outline_prompt bd) 4000)
      (min 3 (bd.num_chapters.getD 3)) 1
  have hout : (genOk f).create_book_outline (str "openai") bd
      = (Except.ok (f (outline_prompt bd) 4000),
         [Event.openaiCall (outline_prompt bd) 4000]) := rfl
  refine ⟨?_, ?_, f (outline_prompt bd) 4000, cs, ?_, h2⟩
  · simp only [generate_full_book, hout, h1, countGenCalls,
      List.filter_append, List.filter_cons, List.length_append]
    simp only [countGenCalls] at h3
    simp [isGenCall, h3, Nat.add_comm]
  · simp only [generate_full_book, hout, h1, countSleeps,
      List.filter_append, List.filter_cons, List.length_append]
    simp only [countSleeps] at h4
    simp [isSleep, h4]
  · simp [generate_full_book, hout, h1, h2]

/-- Counterexample to C2 as stated: with `num_chapters = 1` the code
performs one pause, not zero — the sleep also runs after the last chapter. -/
theorem generate_full_book_pause_cex :
    bdSample.num_chapters = some 1 ∧
    countSleeps (generate_full_book (genOk (fun _ _ => str "OUT"))
        { provider := some (str "openai"), book_data := some bdSample }).2 = 1 ∧
    countSleeps (generate_full_book (genOk (fun _ _ => str "OUT"))
        { provider := some (str "openai"), book_data := some bdSample }).2 ≠ 0 := by
  refine ⟨rfl, ?_, ?_⟩ <;> decide

/-- The anthropic block succeeds iff a present, non-empty key constructs. -/
lemma configure_anthropic_step_success (env : SDKEnv) (g : BookGenerator)
    (cfg : ApiConfigs) :
    (configure_anthropic_step env g cfg).2 = true ↔
      (truthy cfg.anthropic_key = true →
        exceptOk (env.mkAnthropic (cfg.anthropic_key.getD [])) = true) := by
  unfold configure_anthropic_step
  by_cases h : truthy cfg.anthropic_key
  · cases henv : env.mkAnthropic (cfg.anthropic_key.getD []) with
    | error e => simp [h, henv, exceptOk]
    | ok c => simp [h, henv, exceptOk]
  · simp [h]

/-- The gemini and anthropic blocks succeed iff each present, non-empty key
constructs; the outcome flag does not depend on the incoming state. -/
lemma configure_gemini_step_success (env : SDKEnv) (g : BookGenerator)
    (cfg : ApiConfigs) :
    (configure_gemini_step env g cfg).2 = true ↔
      ((truthy cfg.gemini_key = true →
          exceptOk (env.mkGemini (cfg.gemini_key.getD [])) = true) ∧
       (truthy cfg.anthropic_key = true →
          exceptOk (env.mkAnthropic (cfg.anthropic_key.getD [])) = true)) := by
  unfold configure_gemini_step
  by_cases h : truthy cfg.gemini_key
  · cases henv : env.mkGemini (cfg.gemini_key.getD []) with
    | error e => simp [h, henv, exceptOk]
    | ok m => simp [h, henv, exceptOk, configure_anthropic_step_success]
  · simp [h, configure_anthropic_step_success]

/-- Claim C3 (amended): the provider entries are attempted sequentially
(openai, gemini, anthropic) inside one exception scope.  `configure_apis`
returns success iff every present, non-empty credential configures
successfully; and when the first (openai) entry is present and its
construction fails, the method returns `(g, false)` immediately — the
remaining providers are not attempted and the state is untouched. -/
theorem configure_apis_sequential_scope (env : SDKEnv) (g : BookGenerator)
    (cfg : ApiConfigs) :
    ((BookGenerator.configure_apis env g cfg).2 = true ↔
      ((truthy cfg.openai_key = true →
          exceptOk (env.mkOpenAI (cfg.openai_key.getD [])) = true) ∧
       (truthy cfg.gemini_key = true →
          exceptOk (env.mkGemini (cfg.gemini_key.getD [])) = true) ∧
       (truthy cfg.anthropic_key = true →
          exceptOk (env.mkAnthropic (cfg.anthropic_key.getD [])) = true))) ∧
    (∀ e, truthy cfg.openai_key = true →
      env.mkOpenAI (cfg.openai_key.getD []) = .error e →
      BookGenerator.configure_apis env g cfg = (g, false)) := by
  constructor
  · unfold BookGenerator.configure_apis
    by_cases h : truthy cfg.openai_key
    · cases henv : env.mkOpenAI (cfg.openai_key.getD []) with
      | error e => simp [h, henv, exceptOk]
      | ok c => simp [h, henv, exceptOk, configure_gemini_step_success]
    · simp [h, configure_gemini_step_success]
  · intro e h1 h2
    unfold BookGenerator.configure_apis
    simp [h1, h2]

/-- An environment whose OpenAI constructor raises while the other two
constructors succeed. -/
def envOpenaiBoom : SDKEnv :=
  { mkOpenAI := fun _ => .error (.apiError (str "boom")),
    mkGemini := fun _ => .ok okGemini,
    mkAnthropic := fun _ => .ok okAnthropic }

/-- A credentials map carrying OpenAI and Gemini keys. -/
def cfgBoth : ApiConfigs :=
  { openai_key := some (str "k1"), gemini_key := some (str "k2"),
    anthropic_key := none }

/-- Counterexample to C3 as stated: the gemini key is present and its
constructor would succeed, yet after an openai failure `configure_apis`
leaves `genai_model` unconfigured — the entries are not independent. -/
theorem configure_apis_independence_cex :
    (BookGenerator.configure_apis envOpenaiBoom freshGen cfgBoth).1.genai_model
        = none ∧
    (BookGenerator.configure_apis envOpenaiBoom freshGen cfgBoth).2 = false ∧
    truthy cfgBoth.gemini_key = true ∧
    exceptOk (envOpenaiBoom.mkGemini (cfgBoth.gemini_key.getD [])) = true :=
  ⟨rfl, rfl, rfl, rfl⟩

/-- Witness for C3 (amended): a failing first entry aborts the whole call. -/
theorem configure_apis_sequential_scope_witness :
    BookGenerator.configure_apis envOpenaiBoom freshGen cfgBoth
      = (freshGen, false) :=
  (configure_apis_sequential_scope envOpenaiBoom freshGen cfgBoth).2
    (.apiError (str "boom")) rfl rfl

/-- Claim C8: the generation handlers catch every error raised during
handling and convert it into a `success:false` response with a message:
a body missing `provider` yields the `KeyError('provider')` failure
response, and any exception escaping the orchestrator (AttributeError for
an unconfigured client, ValueError for an unsupported provider, an SDK
error, ...) becomes the corresponding failure response — never an
unhandled crash. -/
theorem handler_error_to_fail_response (g : BookGenerator)
    (req : ProviderBookReq) (creq : ChapterReq) :
    (req.provider = none →
      (create_outline g req).1
        = .fail (outline_error_msg (.keyError (str "provider")))) ∧
    (∀ p bd e tr, req.provider = some p → req.book_data = some bd →
      g.create_book_outline p bd = (.error e, tr) →
      (create_outline g req).1 = .fail (outline_error_msg e)) ∧
    (creq.provider = none →
      (generate_chapter g creq).1
        = .fail (chapter_error_msg (.keyError (str "provider")))) ∧
    (∀ p bd ci e tr, creq.provider = some p → creq.book_data = some bd →
      creq.chapter_info = some ci →
      g.generate_chapter p bd ci (creq.outline.getD []) = (.error e, tr) →
      (generate_chapter g creq).1 = .fail (chapter_error_msg e)) := by
  refine ⟨?_, ?_, ?_, ?_⟩
  · intro h; simp [create_outline, h]
  · intro p bd e tr h1 h2 h3
    simp [create_outline, h1, h2, h3]
  · intro h; simp [generate_chapter, h]
  · intro p bd ci e tr h1 h2 h3 h4
    simp [generate_chapter, h1, h2, h3, h4]

/-- Witness for C8: a request body missing `provider` produces the
`success:false` response with the `KeyError` message. -/
theorem handler_error_to_fail_response_witness :
    (create_outline freshGen { provider := none, book_data := none }).1
      = .fail (outline_error_msg (.keyError (str "provider"))) :=
  (handler_error_to_fail_response freshGen
      { provider := none, book_data := none }
      { provider := none, book_data := none, chapter_info := none,
        outline := none }).1 rfl

/-- The anthropic block never touches the openai or gemini fields. -/
lemma configure_anthropic_step_fields (env : SDKEnv) (g : BookGenerator)
    (cfg : ApiConfigs) :
    (configure_anthropic_step env g cfg).1.openai_client = g.openai_client ∧
    (configure_anthropic_step env g cfg).1.genai_model = g.genai_model := by
  unfold configure_anthropic_step
  split
  · split <;> exact ⟨rfl, rfl⟩
  · exact ⟨rfl, rfl⟩

/-- The gemini and anthropic blocks never touch the openai field. -/
lemma configure_gemini_step_openai (env : SDKEnv) (g : BookGenerator)
    (cfg : ApiConfigs) :
    (configure_gemini_step env g cfg).1.openai_client = g.openai_client := by
  unfold configure_gemini_step
  split
  · split
    · rfl
    · exact (configure_anthropic_step_fields env _ cfg).1
  · exact (configure_anthropic_step_fields env g cfg).1

/-- With no (or an empty) gemini key, `genai_model` is left unchanged. -/
lemma configure_gemini_step_genai (env : SDKEnv) (g : BookGenerator)
    (cfg : ApiConfigs) (h : truthy cfg.gemini_key = false) :
    (configure_gemini_step env g cfg).1.genai_model = g.genai_model := by
  unfold configure_gemini_step
  rw [h]
  exact (configure_anthropic_step_fields env g cfg).2

/-- With no (or an empty) anthropic key, the anthropic block is skipped. -/
lemma configure_anthropic_step_skip (env : SDKEnv) (g : BookGenerator)
    (cfg : ApiConfigs) (h : truthy cfg.anthropic_key = false) :
    configure_anthropic_step env g cfg = (g, true) := by
  unfold configure_anthropic_step
  rw [h]
  rfl

/-- With no (or an empty) anthropic key, `anthropic_client` is unchanged. -/
lemma configure_gemini_step_anthropic (env : SDKEnv) (g : BookGenerator)
    (cfg : ApiConfigs) (h : truthy cfg.anthropic_key = false) :
    (configure_gemini_step env g cfg).1.anthropic_client
      = g.anthropic_client := by
  unfold configure_gemini_step
  split
  · split
    · rfl
    · rw [configure_anthropic_step_skip env _ cfg h]
  · rw [configure_anthropic_step_skip env g cfg h]

/-- Claim C10: `configure_apis` only writes the client fields whose
credential key is present and non-empty: an absent or empty key leaves the
corresponding field untouched, whatever happens to the other entries, and
an empty credentials map succeeds and leaves the whole state unchanged. -/
theorem configure_apis_frame (env : SDKEnv) (g : BookGenerator)
    (cfg : ApiConfigs) :
    (truthy cfg.openai_key = false →
      (BookGenerator.configure_apis env g cfg).1.openai_client
        = g.openai_client) ∧
    (truthy cfg.gemini_key = false →
      (BookGenerator.configure_apis env g cfg).1.genai_model
        = g.genai_model) ∧
    (truthy cfg.anthropic_key = false →
      (BookGenerator.configure_apis env g cfg).1.anthropic_client
        = g.anthropic_client) ∧
    BookGenerator.configure_apis env g
      { openai_key := none, gemini_key := none, anthropic_key := none }
      = (g, true) := by
  refine ⟨?_, ?_, ?_, rfl⟩
  · intro h
    unfold BookGenerator.configure_apis
    rw [h]
    exact configure_gemini_step_openai env g cfg
  · intro h
    unfold BookGenerator.configure_apis
    by_cases h0 : truthy cfg.openai_key
    · rw [h0]
      cases henv : env.mkOpenAI (cfg.openai_key.getD []) with
      | error e => simp
      | ok c => simp [configure_gemini_step_genai env _ cfg h]
    · rw [if_neg h0]
      exact configure_gemini_step_genai env g cfg h
  · intro h
    unfold BookGenerator.configure_apis
    by_cases h0 : truthy cfg.openai_key
    · rw [h0]
      cases henv : env.mkOpenAI (cfg.openai_key.getD []) with
      | error e => simp
      | ok c => simp [configure_gemini_step_anthropic env _ cfg h]
    · rw [if_neg h0]
      exact configure_gemini_step_anthropic env g cfg h

/-- Witness for C10: with the anthropic key absent, `anthropic_client`
stays `None` even though the other two keys are present. -/
theorem configure_apis_frame_witness :
    (BookGenerator.configure_apis envOpenaiBoom freshGen
        cfgBoth).1.anthropic_client = none :=
  ((configure_apis_frame envOpenaiBoom freshGen cfgBoth).2.2.1 rfl).trans rfl
